import Mathlib

/-!
Shallow embedding of the streaming-session lifecycle manager of
homebridge-camera-ffmpeg (`StreamingDelegate` in the streaming source file):
the session maps, the ffmpeg command builders for snapshot and stream, the
bitrate/dimension clamping, and the prepare/start/reconfigure/stop events.
JavaScript numbers that may be `undefined` are modelled as `Option Nat`
(`none` = undefined), strings that may be `null`/`undefined` as
`Option String`, and the JS `||` default idiom with its falsiness of `0`
and the empty string is modelled explicitly.
-/

/-- JS truthiness of a possibly-undefined number: `undefined` and `0` are falsy. -/
def truthyN : Option Nat → Bool
  | some n => n != 0
  | none => false

/-- JS truthiness of a possibly-undefined string: `undefined` and the empty string are falsy. -/
def truthyS : Option String → Bool
  | some s => s != ""
  | none => false

/-- JS `x || d` for a possibly-undefined number `x` with default `d`. -/
def jsOrNat (x : Option Nat) (d : Nat) : Nat :=
  match x with
  | some n => if n = 0 then d else n
  | none => d

/-- JS `x || d` for a possibly-undefined string `x` with default `d`. -/
def jsOrStr (x : Option String) (d : String) : String :=
  match x with
  | some s => if s = "" then d else s
  | none => d

/-- JS `x || null` for a possibly-undefined string `x`: empty string collapses to null. -/
def jsOrStrNull (x : Option String) : Option String :=
  match x with
  | some s => if s = "" then none else some s
  | none => none

/-- JS `a > b` where `b` may be `undefined`: any comparison with `undefined` is false. -/
def jsGT (a : Nat) : Option Nat → Bool
  | some m => a > m
  | none => false

/-- JS `a < b` where `b` may be `undefined`: any comparison with `undefined` is false. -/
def jsLT (a : Nat) : Option Nat → Bool
  | some m => a < m
  | none => false

/-- JS `a > b` where both sides may be `undefined`. -/
def jsGTO : Option Nat → Option Nat → Bool
  | some a, some b => a > b
  | _, _ => false

/-- The raw `cameraConfig.videoConfig` object (`this.ffmpegOpt` in the source),
with every field possibly absent, as in the untyped JS config. -/
structure VideoConfigOpt where
  source : Option String := none
  stillImageSource : Option String := none
  maxWidth : Option Nat := none
  maxHeight : Option Nat := none
  maxFPS : Option Nat := none
  maxBitrate : Option Nat := none
  minBitrate : Option Nat := none
  packetSize : Option Nat := none
  vcodec : Option String := none
  videoFilter : Option String := none
  additionalCommandline : Option String := none
  mapvideo : Option String := none
  mapaudio : Option String := none
  preserveRatioMode : Option String := none
  audio : Bool := false
  vflip : Bool := false
  hflip : Bool := false
  debug : Bool := false
deriving DecidableEq

/-- The fields of `StreamingDelegate` set by its constructor (lines 69-102). -/
structure StreamingDelegate where
  ffmpegOpt : VideoConfigOpt
  vcodec : String
  packetSize : Nat
  fps : Option Nat
  maxBitrate : Option Nat
  minBitrate : Option Nat
  vflip : Bool
  hflip : Bool
  mapvideo : String
  mapaudio : String
  videoFilter : Option String
  additionalCommandline : String
  audio : Bool
  debug : Bool
deriving DecidableEq

/-- Constructor clamp of the bitrate floor (lines 81-83):
`if (this.maxBitrate && this.minBitrate > this.maxBitrate) this.minBitrate = this.maxBitrate`. -/
def clampMinBitrate (minB maxB : Option Nat) : Option Nat :=
  if truthyN maxB && jsGTO minB maxB then maxB else minB

/-- The `StreamingDelegate` constructor (lines 69-102), minus the side effects.
The missing-source throw of lines 93-95 is modelled by `mkDelegateChecked`. -/
def mkDelegate (opt : VideoConfigOpt) : StreamingDelegate :=
  { ffmpegOpt := opt
    vcodec := jsOrStr opt.vcodec "libx264"
    packetSize := jsOrNat opt.packetSize 1316
    fps := opt.maxFPS
    maxBitrate := opt.maxBitrate
    minBitrate := clampMinBitrate opt.minBitrate opt.maxBitrate
    vflip := opt.vflip
    hflip := opt.hflip
    mapvideo := jsOrStr opt.mapvideo "0:0"
    mapaudio := jsOrStr opt.mapaudio "0:1"
    videoFilter := jsOrStrNull opt.videoFilter
    additionalCommandline := jsOrStr opt.additionalCommandline "-preset ultrafast -tune zerolatency"
    audio := opt.audio
    debug := opt.debug }

/-- The constructor including the `Missing source for camera.` throw (lines 93-95). -/
def mkDelegateChecked (opt : VideoConfigOpt) : Except String StreamingDelegate :=
  if truthyS opt.source = false && opt.source = none then .error "Missing source for camera."
  else .ok (mkDelegate opt)

/-- The repeated clamping ternary `req > max ? max : req` of lines 105-106 and
261-263, where the configured maximum may be `undefined` (comparison false). -/
def clampReq (req : Nat) (maxO : Option Nat) : Nat :=
  if jsGT req maxO then maxO.getD req else req

/-- The per-request video parameters of a start event (`request.video`). -/
structure VideoInfo where
  width : Nat
  height : Nat
  fps : Nat
  pt : Nat
  max_bit_rate : Nat
  mtu : Nat
deriving DecidableEq

/-- The per-request audio parameters of a start event (`request.audio`). -/
structure AudioInfo where
  pt : Nat
  max_bit_rate : Nat
  sample_rate : Nat
deriving DecidableEq

/-- Width emitted by the stream builder (line 261). -/
def streamWidth (d : StreamingDelegate) (video : VideoInfo) : Nat :=
  clampReq video.width d.ffmpegOpt.maxWidth

/-- Height emitted by the stream builder (line 262). -/
def streamHeight (d : StreamingDelegate) (video : VideoInfo) : Nat :=
  clampReq video.height d.ffmpegOpt.maxHeight

/-- Frame rate emitted by the stream builder (line 263). -/
def streamFps (d : StreamingDelegate) (video : VideoInfo) : Nat :=
  clampReq video.fps d.fps

/-- The `preserveRatio` switch (lines 112-125 and 268-281). -/
def mkResolution (mode : Option String) (w h : Nat) : String :=
  match mode with
  | some "W" => toString w ++ ":-1"
  | some "H" => "-1:" ++ toString h
  | _ => toString w ++ ":" ++ toString h

/-- `filter === '' || filter === null ? 'scale=' + resolution : filter`
(lines 128 and 309). -/
def effectiveVideoFilter (filter : Option String) (resolution : String) : Option String :=
  match filter with
  | none => some ("scale=" ++ resolution)
  | some s => if s = "" then some ("scale=" ++ resolution) else some s

/-- The `-vf` filter list built by the snapshot path (lines 127-140):
hflip, then vflip, then the scale/custom filter. -/
def snapshotVf (d : StreamingDelegate) (reqW reqH : Nat) : List String :=
  let width := clampReq reqW d.ffmpegOpt.maxWidth
  let height := clampReq reqH d.ffmpegOpt.maxHeight
  let resolution := mkResolution d.ffmpegOpt.preserveRatioMode width height
  match effectiveVideoFilter d.videoFilter resolution with
  | none => []
  | some f =>
    if f ≠ "none" then
      (if d.hflip then ["hflip"] else []) ++ (if d.vflip then ["vflip"] else []) ++ [f]
    else []

/-- The `-vf` filter list built by the stream path (lines 306-318):
the scale/custom filter first, then hflip, then vflip, all skipped
for the `copy` codec. -/
def streamVf (d : StreamingDelegate) (video : VideoInfo) : List String :=
  let resolution :=
    mkResolution d.ffmpegOpt.preserveRatioMode (streamWidth d video) (streamHeight d video)
  match effectiveVideoFilter d.videoFilter resolution with
  | none => []
  | some f =>
    if f ≠ "none" ∧ d.vcodec ≠ "copy" then
      [f] ++ (if d.hflip then ["hflip"] else []) ++ (if d.vflip then ["vflip"] else [])
    else []

/-- `vf.length > 0 ? ' -vf ' + vf.join(',') : ''` (lines 146 and 331). -/
def vfFragment (vf : List String) : String :=
  if vf.length > 0 then " -vf " ++ String.intercalate "," vf else ""

/-- The snapshot ffmpeg invocation string (line 146). -/
def snapshotCommand (d : StreamingDelegate) (reqW reqH : Nat) : String :=
  let imageSource :=
    (if truthyS d.ffmpegOpt.stillImageSource then d.ffmpegOpt.stillImageSource
     else d.ffmpegOpt.source).getD "undefined"
  imageSource ++ " -frames:v 1" ++ vfFragment (snapshotVf d reqW reqH) ++ " -f image2 -"

/-- Video bitrate clamping of the stream path (lines 285-290). -/
def clampVideoBitrate (d : StreamingDelegate) (req : Nat) : Nat :=
  if truthyN d.maxBitrate && jsGT req d.maxBitrate then d.maxBitrate.getD req
  else if truthyN d.minBitrate && jsLT req d.minBitrate then d.minBitrate.getD req
  else req

/-- Audio bitrate clamping of the stream path (lines 291-294): ceiling only. -/
def clampAudioBitrate (d : StreamingDelegate) (req : Nat) : Nat :=
  if truthyN d.maxBitrate && jsGT req d.maxBitrate then d.maxBitrate.getD req
  else req

/-- `const mtu = this.packetSize || video.mtu` (line 296). -/
def streamMtu (d : StreamingDelegate) (video : VideoInfo) : Nat :=
  if d.packetSize ≠ 0 then d.packetSize else video.mtu

/-- The negotiated per-session record (`SessionInfo`, lines 27-41), with the
crypto material carried as its base64 string form. -/
structure SessionInfo where
  address : String
  videoPort : Nat
  videoReturnPort : Nat
  videoSRTP : String
  videoSSRC : Nat
  audioPort : Nat
  audioReturnPort : Nat
  audioSRTP : String
  audioSSRC : Nat
deriving DecidableEq

/-- `ffmpegVideoArgs` (lines 324-335). -/
def ffmpegVideoArgs (d : StreamingDelegate) (video : VideoInfo) : String :=
  " -map " ++ d.mapvideo ++
  " -vcodec " ++ d.vcodec ++
  " -pix_fmt yuv420p" ++
  " -r " ++ toString (streamFps d video) ++
  " -f rawvideo" ++
  " " ++ d.additionalCommandline ++
  vfFragment (streamVf d video) ++
  " -b:v " ++ toString (clampVideoBitrate d video.max_bit_rate) ++ "k" ++
  " -bufsize " ++ toString (2 * clampVideoBitrate d video.max_bit_rate) ++ "k" ++
  " -maxrate " ++ toString (clampVideoBitrate d video.max_bit_rate) ++ "k" ++
  " -payload_type " ++ toString video.pt

/-- `ffmpegVideoStream` (lines 337-343): the RTP output target of the video
stream, whose final query parameter is `pkt_size`. -/
def ffmpegVideoStream (d : StreamingDelegate) (si : SessionInfo) (video : VideoInfo) : String :=
  " -ssrc " ++ toString si.videoSSRC ++
  " -f rtp" ++
  " -srtp_out_suite AES_CM_128_HMAC_SHA1_80" ++
  " -srtp_out_params " ++ si.videoSRTP ++
  " srtp://" ++ si.address ++ ":" ++ toString si.videoPort ++
  "?rtcpport=" ++ toString si.videoPort ++ "&localrtcpport=" ++ toString si.videoPort ++
  "&pkt_size=" ++ toString (streamMtu d video)

/-- `ffmpegAudioArgs` (lines 351-361). -/
def ffmpegAudioArgs (d : StreamingDelegate) (audio : AudioInfo) : String :=
  " -map " ++ d.mapaudio ++
  " -acodec libfdk_aac" ++
  " -profile:a aac_eld" ++
  " -flags +global_header" ++
  " -f null" ++
  " -ar " ++ toString audio.sample_rate ++ "k" ++
  " -b:a " ++ toString (clampAudioBitrate d audio.max_bit_rate) ++ "k" ++
  " -bufsize " ++ toString (clampAudioBitrate d audio.max_bit_rate) ++ "k" ++
  " -ac 1" ++
  " -payload_type " ++ toString audio.pt

/-- `ffmpegAudioStream` (lines 363-369). -/
def ffmpegAudioStream (si : SessionInfo) : String :=
  " -ssrc " ++ toString si.audioSSRC ++
  " -f rtp" ++
  " -srtp_out_suite AES_CM_128_HMAC_SHA1_80" ++
  " -srtp_out_params " ++ si.audioSRTP ++
  " srtp://" ++ si.address ++ ":" ++ toString si.audioPort ++
  "?rtcpport=" ++ toString si.audioPort ++ "&localrtcpport=" ++ toString si.audioPort ++
  "&pkt_size=188"

/-- The full stream command `fcmd` assembled by the start branch (lines 320-377). -/
def buildStreamCommand (d : StreamingDelegate) (si : SessionInfo)
    (video : VideoInfo) (audio : AudioInfo) : String :=
  (d.ffmpegOpt.source.getD "undefined") ++
  ffmpegVideoArgs d video ++
  ffmpegVideoStream d si video ++
  (if d.audio then ffmpegAudioArgs d audio ++ ffmpegAudioStream si else "") ++
  (if d.debug then " -loglevel level+verbose" else "")

/-- A JS `Record<string, V>`, modelled as an association list with at most one
entry per key: insertion overwrites, deletion removes. -/
def recInsert {α : Type} (k : String) (v : α) (m : List (String × α)) : List (String × α) :=
  (k, v) :: m.filter (fun p => p.1 != k)

/-- `delete m[k]` on a JS record. -/
def recDelete {α : Type} (k : String) (m : List (String × α)) : List (String × α) :=
  m.filter (fun p => p.1 != k)

/-- `m[k]`, yielding `undefined` (`none`) for an absent key. -/
def recLookup {α : Type} (k : String) (m : List (String × α)) : Option α :=
  (m.find? (fun p => p.1 == k)).map (fun p => p.2)

/-- Modelled from the spec: the Process Supervisor handle (`FfmpegProcess` of
`src/ffmpeg.ts`, a source file not among those provided). Per the spec it owns
the subprocess launched for one active session and its `stop()` sends a
graceful-then-forceful termination and is idempotent and non-throwing; only the
handle's existence and the command it was launched with matter here. -/
structure FfmpegProcess where
  sid : String
  cmd : String
deriving DecidableEq

/-- The two session maps of the delegate (lines 66-67). -/
structure DelegateState where
  pendingSessions : List (String × SessionInfo)
  ongoingSessions : List (String × FfmpegProcess)
deriving DecidableEq

/-- The JS exceptions that can propagate out of a lifecycle event handler. -/
inductive JsError
  | typeError (msg : String)
deriving DecidableEq

/-- `StreamRequestTypes`. -/
inductive SReqType
  | START
  | RECONFIGURE
  | STOP
deriving DecidableEq

/-- Result of one lifecycle event: the new session maps, the subprocess
launched during the event (if any), and the exception that propagated out of
the handler (if any). -/
structure StepResult where
  state : DelegateState
  launched : Option FfmpegProcess
  error : Option JsError
deriving DecidableEq

/-- The fields of a `prepareStream` request used by the session store. -/
structure PrepareRequest where
  sessionID : String
  targetAddress : String
  videoPort : Nat
  audioPort : Nat
  videoKeySalt : String
  audioKeySalt : String
deriving DecidableEq

/-- `prepareStream` (lines 175-245): builds the `SessionInfo` from the request
plus the allocated return ports and generated synchronisation sources (passed
here as oracle inputs for the port/SSRC generators), and stores it as pending,
overwriting any prior pending record for the same identifier (line 243). -/
def prepareStream (st : DelegateState) (req : PrepareRequest)
    (videoReturnPort audioReturnPort videoSSRC audioSSRC : Nat) :
    DelegateState × SessionInfo :=
  let si : SessionInfo :=
    { address := req.targetAddress
      videoPort := req.videoPort
      videoReturnPort := videoReturnPort
      videoSRTP := req.videoKeySalt
      videoSSRC := videoSSRC
      audioPort := req.audioPort
      audioReturnPort := audioReturnPort
      audioSRTP := req.audioKeySalt
      audioSSRC := audioSSRC }
  ({ st with pendingSessions := recInsert req.sessionID si st.pendingSessions }, si)

/-- `stopStream` (lines 409-423): if an ongoing record exists its process is
stopped, then the ongoing record is deleted; the whole body is wrapped in
`try/catch`, and the modelled `FfmpegProcess.stop` (see `FfmpegProcess`) does
not throw, so the function is total and never propagates an error. The pending
map is not touched. Returns the new state and the identifiers whose processes
were stopped during the call. -/
def stopStream (st : DelegateState) (sessionId : String) :
    DelegateState × List String :=
  let stopped :=
    match recLookup sessionId st.ongoingSessions with
    | some _ => [sessionId]
    | none => []
  ({ st with ongoingSessions := recDelete sessionId st.ongoingSessions }, stopped)

/-- `handleStreamRequest` (lines 247-407). In the START branch the pending
record is read (line 257) and first dereferenced at line 298
(`sessionInfo.address`); when no pending record exists that dereference throws
a `TypeError` which propagates out of the handler before any subprocess is
launched or any map is mutated. On success the command is built, the process
launched, the ongoing record inserted (line 391) and the pending record
deleted (line 392) within the same synchronous step. -/
def handleStreamRequest (d : StreamingDelegate) (st : DelegateState)
    (sessionId : String) (ty : SReqType) (video : VideoInfo) (audio : AudioInfo) :
    StepResult :=
  match ty with
  | .START =>
    match recLookup sessionId st.pendingSessions with
    | none =>
      { state := st
        launched := none
        error := some (.typeError "Cannot read properties of undefined (reading address)") }
    | some si =>
      let ffmpeg : FfmpegProcess := ⟨sessionId, buildStreamCommand d si video audio⟩
      { state :=
          { pendingSessions := recDelete sessionId st.pendingSessions
            ongoingSessions := recInsert sessionId ffmpeg st.ongoingSessions }
        launched := some ffmpeg
        error := none }
  | .RECONFIGURE =>
    { state := st, launched := none, error := none }
  | .STOP =>
    { state := (stopStream st sessionId).1, launched := none, error := none }

/-- The SHUTDOWN handler (lines 97-101): `stopStream` for every ongoing session. -/
def shutdownAll (st : DelegateState) : DelegateState :=
  st.ongoingSessions.foldl (fun s p => (stopStream s p.1).1) st

/-- Events observed on a spawned snapshot subprocess, in delivery order
(the `data`, `error` and `close` handlers of lines 154-168). -/
inductive ProcEvent
  | data (chunk : List Nat)
  | errored (msg : String)
  | closed
deriving DecidableEq

/-- Outcome of the `spawn` call of lines 144-148: either a synchronous throw,
or a handle whose subsequent events are the given list. -/
inductive SpawnOutcome
  | threw (err : String)
  | proc (events : List ProcEvent)
deriving DecidableEq

/-- One invocation of the snapshot callback: `callback(undefined, bytes)` or
`callback(err)`. -/
inductive SnapshotResult
  | ok (bytes : List Nat)
  | err (msg : String)
deriving DecidableEq

/-- The event handlers registered by `handleSnapshotRequest` (lines 154-168):
`data` appends to the image buffer, `error` only logs, `close` invokes the
callback with the bytes accumulated so far. -/
def runSnapshotEvents : List ProcEvent → List Nat → List SnapshotResult
  | [], _ => []
  | .data chunk :: rest, buf => runSnapshotEvents rest (buf ++ chunk)
  | .errored _ :: rest, buf => runSnapshotEvents rest buf
  | .closed :: rest, buf => .ok buf :: runSnapshotEvents rest buf

/-- `handleSnapshotRequest` (lines 104-173): builds the snapshot command and
spawns it inside `try/catch`; a synchronous `spawn` throw reaches the `catch`
and surfaces as `callback(err)`, while a handle's events are processed by the
registered handlers. Returns the command passed to `spawn` and the sequence of
callback invocations. -/
def handleSnapshotRequest (d : StreamingDelegate) (reqW reqH : Nat)
    (outcome : SpawnOutcome) : String × List SnapshotResult :=
  (snapshotCommand d reqW reqH,
   match outcome with
   | .threw e => [.err e]
   | .proc events => runSnapshotEvents events [])

/-- The C4 invariant: a session identifier is in at most one of the two maps. -/
def SessionInv (st : DelegateState) : Prop :=
  ∀ id : String,
    (recLookup id st.pendingSessions).isSome = false ∨
    (recLookup id st.ongoingSessions).isSome = false

theorem recLookup_cons {α : Type} (k : String) (p : String × α) (m : List (String × α)) :
    recLookup k (p :: m) = if p.1 == k then some p.2 else recLookup k m := by
  by_cases h : p.1 == k
  · simp [recLookup, List.find?_cons, h]
  · simp only [recLookup, List.find?_cons] at *
    rw [if_neg (by simpa using h)]
    simp only [Bool.not_eq_true] at h
    rw [h]

theorem recLookup_recDelete {α : Type} (k k2 : String) (m : List (String × α)) :
    recLookup k (recDelete k2 m) = if k = k2 then none else recLookup k m := by
  induction m with
  | nil =>
    by_cases h : k = k2 <;> simp [recDelete, recLookup, h]
  | cons p m ih =>
    simp only [recDelete] at *
    rw [List.filter_cons]
    by_cases hp : p.1 = k2
    · have hbne : (p.1 != k2) = false := by simp [hp]
      rw [hbne]
      simp only [Bool.false_eq_true, if_false, ih]
      by_cases hk : k = k2
      · simp [hk]
      · have hpk : (p.1 == k) = false := by
          simp only [beq_eq_false_iff_ne, ne_eq]
          intro hc
          exact hk (by rw [← hc, hp])
        simp [hk, recLookup_cons, hpk]
    · have hbne : (p.1 != k2) = true := by simp [hp]
      rw [hbne]
      simp only [if_true, recLookup_cons, ih]
      by_cases hpk : (p.1 == k) = true
      · have hk : ¬k = k2 := by
          intro hc
          exact hp (by rw [eq_of_beq hpk, hc])
        simp [hpk, hk]
      · simp only [Bool.not_eq_true] at hpk
        simp [hpk]

theorem recLookup_recInsert {α : Type} (k k2 : String) (v : α) (m : List (String × α)) :
    recLookup k (recInsert k2 v m) = if k = k2 then some v else recLookup k m := by
  simp only [recInsert, recLookup_cons]
  by_cases h : k = k2
  · simp [h]
  · have hbk : (k2 == k) = false := by
      simp only [beq_eq_false_iff_ne, ne_eq]
      intro hc
      exact h hc.symm
    have hdel := recLookup_recDelete (α := α) k k2 m
    simp only [recDelete] at hdel
    simp [hbk, h, hdel]

theorem recDelete_recDelete {α : Type} (k : String) (m : List (String × α)) :
    recDelete k (recDelete k m) = recDelete k m := by
  simp only [recDelete, List.filter_filter]
  congr 1
  funext p
  exact Bool.and_self _

/-- A camera configuration with resolution ceilings and no packet size. -/
def sampleOpt : VideoConfigOpt :=
  { source := some "-i rtsp://cam"
    maxWidth := some 1280
    maxHeight := some 720
    maxFPS := some 30 }

/-- The delegate constructed from `sampleOpt`. -/
def sampleDelegate : StreamingDelegate := mkDelegate sampleOpt

/-- A start request asking for 1080p at MTU 188. -/
def sampleVideo : VideoInfo :=
  { width := 1920, height := 1080, fps := 30, pt := 99, max_bit_rate := 300, mtu := 188 }

/-- A start request's audio parameters. -/
def sampleAudio : AudioInfo :=
  { pt := 110, max_bit_rate := 24, sample_rate := 16 }

/-- A negotiated session record. -/
def sampleSession : SessionInfo :=
  { address := "10.0.0.5"
    videoPort := 50000
    videoReturnPort := 51000
    videoSRTP := "VjEyMzQ1Ng=="
    videoSSRC := 1
    audioPort := 50002
    audioReturnPort := 51002
    audioSRTP := "QTEyMzQ1Ng=="
    audioSSRC := 2 }

/-- A negotiation request for the identifier `sess`. -/
def prepReq : PrepareRequest :=
  { sessionID := "sess"
    targetAddress := "10.0.0.5"
    videoPort := 50000
    audioPort := 50002
    videoKeySalt := "VjEyMzQ1Ng=="
    audioKeySalt := "QTEyMzQ1Ng==" }

/-- `sampleOpt` with the horizontal flip flag set. -/
def flipOpt : VideoConfigOpt :=
  { source := some "-i rtsp://cam"
    maxWidth := some 1280
    maxHeight := some 720
    hflip := true }

/-- A configuration selecting the pass-through `copy` codec with a flip flag. -/
def copyOpt : VideoConfigOpt :=
  { source := some "-i rtsp://cam"
    vcodec := some "copy"
    hflip := true }

/-- A configuration with bitrate ceiling 500 and floor 200. -/
def brOpt : VideoConfigOpt :=
  { source := some "-i rtsp://cam"
    maxBitrate := some 500
    minBitrate := some 200 }

/-- A configuration whose bitrate floor 900 exceeds its ceiling 500. -/
def brExceedOpt : VideoConfigOpt :=
  { source := some "-i rtsp://cam"
    maxBitrate := some 500
    minBitrate := some 900 }

/-- A configuration whose video filter is the literal string `none`. -/
def noneOpt : VideoConfigOpt :=
  { source := some "-i rtsp://cam"
    videoFilter := some "none"
    hflip := true
    vflip := true }

/-- C1 counterexample: a START event for an identifier with no pending record
does raise an error (the `TypeError` from dereferencing the missing record at
line 298), contradicting the claim that the operation does not raise. -/
theorem c1_counterexample :
    (handleStreamRequest sampleDelegate ⟨[], []⟩ "sess" SReqType.START
        sampleVideo sampleAudio).error =
      some (JsError.typeError "Cannot read properties of undefined (reading address)") := rfl

/-- C1 (amended): for every START event whose identifier has no pending record,
no active record is created, no subprocess is launched and the session maps
are unchanged, but the handler raises a `TypeError` (from dereferencing the
missing record) instead of returning silently. -/
theorem c1_start_without_pending (d : StreamingDelegate) (st : DelegateState)
    (sid : String) (v : VideoInfo) (a : AudioInfo)
    (h : recLookup sid st.pendingSessions = none) :
    (handleStreamRequest d st sid .START v a).state = st ∧
    (handleStreamRequest d st sid .START v a).launched = none ∧
    (handleStreamRequest d st sid .START v a).error ≠ none := by
  simp [handleStreamRequest, h]

/-- C1 witness: the amended theorem applied to the empty session store. -/
theorem c1_witness :
    recLookup "sess" (DelegateState.mk [] []).pendingSessions = none ∧
    (handleStreamRequest sampleDelegate ⟨[], []⟩ "sess" SReqType.START
        sampleVideo sampleAudio).state = ⟨[], []⟩ :=
  ⟨rfl, (c1_start_without_pending sampleDelegate ⟨[], []⟩ "sess" sampleVideo sampleAudio rfl).1⟩

/-- C2 counterexample: `stopStream` on an identifier that is only pending
leaves the pending record in place, contradicting the claim that after it
returns the identifier is in neither map. -/
theorem c2_counterexample :
    recLookup "sess"
      ((stopStream ⟨[("sess", sampleSession)], []⟩ "sess").1).pendingSessions =
      some sampleSession := rfl

/-- C2 (amended): `stopStream` never raises (it is total, the source wraps its
body in try/catch); after it returns the identifier is absent from the active
map; calling it again is a no-op that stops nothing; but the pending map is
untouched, so a pending-only record survives the call. -/
theorem c2_stop_idempotent (st : DelegateState) (sid : String) :
    recLookup sid ((stopStream st sid).1).ongoingSessions = none ∧
    ((stopStream st sid).1).pendingSessions = st.pendingSessions ∧
    stopStream ((stopStream st sid).1) sid = ((stopStream st sid).1, []) := by
  refine ⟨?_, rfl, ?_⟩
  · simp [stopStream, recLookup_recDelete]
  · have h1 : recLookup sid (recDelete sid st.ongoingSessions) = none := by
      simp [recLookup_recDelete]
    simp [stopStream, h1, recDelete_recDelete]

/-- C3: at this input the snapshot builder emits the flips before the scale
filter but the stream builder emits the scale filter first and the flips
after it, contradicting the flip-before-scale requirement stated by the
snapshot path's own comment (line 139). -/
theorem c3_stream_flip_after_scale :
    snapshotVf (mkDelegate flipOpt) 1920 1080 = ["hflip", "scale=1280:720"] ∧
    streamVf (mkDelegate flipOpt) sampleVideo = ["scale=1280:720", "hflip"] :=
  ⟨rfl, rfl⟩

theorem sessionInv_stopStream (st : DelegateState) (hInv : SessionInv st) (sid : String) :
    SessionInv (stopStream st sid).1 := by
  intro id
  rcases hInv id with h | h
  · exact Or.inl h
  · right
    simp only [stopStream, recLookup_recDelete]
    by_cases hid : id = sid
    · simp [hid]
    · simp [hid, h]

theorem sessionInv_foldl_stop (l : List (String × FfmpegProcess)) (st : DelegateState)
    (hInv : SessionInv st) :
    SessionInv (l.foldl (fun s p => (stopStream s p.1).1) st) := by
  induction l generalizing st with
  | nil => exact hInv
  | cons p l ih => exact ih _ (sessionInv_stopStream st hInv p.1)

/-- C4 counterexample: after negotiate, start, and a second negotiate for the
same identifier, the identifier is in BOTH the pending and the active map
(`prepareStream` stores a pending record unconditionally, line 243, even for
an already-active identifier), contradicting the unqualified invariant. -/
theorem c4_counterexample :
    (recLookup "sess"
      ((prepareStream
        (handleStreamRequest sampleDelegate
          ((prepareStream ⟨[], []⟩ prepReq 40000 40002 11 12).1)
          "sess" SReqType.START sampleVideo sampleAudio).state
        prepReq 40004 40006 13 14).1).pendingSessions).isSome = true ∧
    (recLookup "sess"
      ((prepareStream
        (handleStreamRequest sampleDelegate
          ((prepareStream ⟨[], []⟩ prepReq 40000 40002 11 12).1)
          "sess" SReqType.START sampleVideo sampleAudio).state
        prepReq 40004 40006 13 14).1).ongoingSessions).isSome = true :=
  ⟨rfl, rfl⟩

/-- C4 (amended): provided a negotiate is never issued for an identifier that
is currently active, every lifecycle event preserves the invariant that a
session identifier is in at most one of the pending and active maps; and the
start event's promotion deletes the pending record and inserts the active
record within the same atomic step (the source performs the insert at line
391 and the delete at line 392 with no observation point between them, so
after the step the identifier is only in the active map). -/
theorem c4_invariant_preservation (d : StreamingDelegate) (st : DelegateState)
    (hInv : SessionInv st) :
    (∀ (req : PrepareRequest) (vrp arp vssrc assrc : Nat),
        (recLookup req.sessionID st.ongoingSessions).isSome = false →
        SessionInv (prepareStream st req vrp arp vssrc assrc).1) ∧
    (∀ (sid : String) (ty : SReqType) (v : VideoInfo) (a : AudioInfo),
        SessionInv (handleStreamRequest d st sid ty v a).state) ∧
    (∀ sid : String, SessionInv (stopStream st sid).1) ∧
    SessionInv (shutdownAll st) ∧
    (∀ (sid : String) (v : VideoInfo) (a : AudioInfo),
        (recLookup sid st.pendingSessions).isSome = true →
        recLookup sid (handleStreamRequest d st sid .START v a).state.pendingSessions = none ∧
        (recLookup sid
          (handleStreamRequest d st sid .START v a).state.ongoingSessions).isSome = true) := by
  refine ⟨?_, ?_, ?_, ?_, ?_⟩
  · intro req vrp arp vssrc assrc hno id
    by_cases hid : id = req.sessionID
    · right
      simpa [prepareStream, hid, Option.isSome] using hno
    · rcases hInv id with h | h
      · left
        simpa [prepareStream, recLookup_recInsert, hid] using h
      · exact Or.inr h
  · intro sid ty v a
    cases ty with
    | START =>
      cases hlk : recLookup sid st.pendingSessions with
      | none => simpa [handleStreamRequest, hlk] using hInv
      | some si =>
        intro id
        by_cases hid : id = sid
        · left
          simp [handleStreamRequest, hlk, hid, recLookup_recDelete]
        · rcases hInv id with h | h
          · left
            simpa [handleStreamRequest, hlk, recLookup_recDelete, hid] using h
          · right
            simpa [handleStreamRequest, hlk, recLookup_recInsert, hid] using h
    | RECONFIGURE => simpa [handleStreamRequest] using hInv
    | STOP =>
      simpa [handleStreamRequest] using sessionInv_stopStream st hInv sid
  · exact sessionInv_stopStream st hInv
  · exact sessionInv_foldl_stop st.ongoingSessions st hInv
  · intro sid v a hp
    rcases Option.isSome_iff_exists.mp hp with ⟨si, hsi⟩
    constructor
    · simp [handleStreamRequest, hsi, recLookup_recDelete]
    · simp [handleStreamRequest, hsi, recLookup_recInsert]

/-- C4 witness: the amended theorem applied to a store holding one pending
record, showing the promotion leaves the identifier only in the active map. -/
theorem c4_witness :
    SessionInv ⟨[("sess", sampleSession)], []⟩ ∧
    recLookup "sess"
      (handleStreamRequest sampleDelegate ⟨[("sess", sampleSession)], []⟩
        "sess" SReqType.START sampleVideo sampleAudio).state.pendingSessions = none :=
  have hInv : SessionInv ⟨[("sess", sampleSession)], []⟩ := fun _ => Or.inr rfl
  ⟨hInv,
    ((c4_invariant_preservation sampleDelegate ⟨[("sess", sampleSession)], []⟩ hInv).2.2.2.2
      "sess" sampleVideo sampleAudio rfl).1⟩

/-- C5 counterexample: with no configured packet size and a requested MTU of
188, the pkt_size value of the video RTP target is the constructor default
1316, not the requested MTU. -/
theorem c5_counterexample :
    sampleOpt.packetSize = none ∧ sampleVideo.mtu = 188 ∧
    streamMtu sampleDelegate sampleVideo = 1316 :=
  ⟨rfl, rfl, rfl⟩

/-- C5 (amended): the pkt_size of the video RTP output target always equals
the configured packet size when one is set (and nonzero), and the default
1316 otherwise; the MTU requested in the start event is never used, because
the constructor default (line 77) makes `this.packetSize` always truthy
before the `this.packetSize || video.mtu` fallback of line 296 is evaluated. -/
theorem c5_pkt_size (opt : VideoConfigOpt) (video : VideoInfo) :
    streamMtu (mkDelegate opt) video = jsOrNat opt.packetSize 1316 := by
  have h : jsOrNat opt.packetSize 1316 ≠ 0 := by
    unfold jsOrNat
    cases opt.packetSize with
    | none => decide
    | some n =>
      by_cases hn : n = 0 <;> simp [hn]
  simp [streamMtu, mkDelegate, h]

/-- C6: the command builder clamps a requested width above the configured
maxWidth down to maxWidth; clamps a requested video bitrate above the
configured (nonzero) maxBitrate down to maxBitrate; clamps a requested video
bitrate below the constructed delegate's (nonzero) minBitrate up to
minBitrate; and the constructor silently lowers a minBitrate exceeding a
nonzero maxBitrate to equal maxBitrate. -/
theorem c6_clamping :
    (∀ (d : StreamingDelegate) (video : VideoInfo) (m : Nat),
        d.ffmpegOpt.maxWidth = some m → video.width > m → streamWidth d video = m) ∧
    (∀ (d : StreamingDelegate) (req M : Nat),
        d.maxBitrate = some M → M ≠ 0 → req > M → clampVideoBitrate d req = M) ∧
    (∀ (opt : VideoConfigOpt) (req m : Nat),
        (mkDelegate opt).minBitrate = some m → m ≠ 0 → req < m →
        clampVideoBitrate (mkDelegate opt) req = m) ∧
    (∀ (opt : VideoConfigOpt) (n M : Nat),
        opt.minBitrate = some n → opt.maxBitrate = some M → M ≠ 0 → n > M →
        (mkDelegate opt).minBitrate = some M) := by
  refine ⟨?_, ?_, ?_, ?_⟩
  · intro d video m hm hgt
    simp [streamWidth, clampReq, jsGT, hm, hgt]
  · intro d req M hM hM0 hgt
    simp [clampVideoBitrate, truthyN, jsGT, hM, hM0, hgt]
  · intro opt req m hmin hm0 hlt
    have hmaxFalse :
        (truthyN (mkDelegate opt).maxBitrate && jsGT req (mkDelegate opt).maxBitrate) = false := by
      simp only [mkDelegate]
      cases hmax : opt.maxBitrate with
      | none => simp [truthyN]
      | some M =>
        by_cases hM0 : M = 0
        · simp [truthyN, hM0]
        · have hle : req ≤ M := by
            simp only [mkDelegate, clampMinBitrate, hmax] at hmin
            cases hmn : opt.minBitrate with
            | none => simp [hmn, jsGTO, truthyN] at hmin
            | some n =>
              by_cases hnM : n > M
              · simp [hmn, jsGTO, truthyN, hM0, hnM] at hmin
                omega
              · simp [hmn, jsGTO, truthyN, hM0, hnM] at hmin
                omega
          simp [truthyN, jsGT, hM0]
          omega
    unfold clampVideoBitrate
    rw [hmaxFalse, hmin]
    simp [truthyN, jsLT, hm0, hlt]
  · intro opt n M hn hM hM0 hnM
    simp [mkDelegate, clampMinBitrate, hn, hM, jsGTO, truthyN, hM0, hnM]

/-- C6 witness: the clamps at concrete inputs — width 1920 against maxWidth
1280, bitrate 600 against ceiling 500, bitrate 100 against floor 200, and a
floor of 900 constructed against a ceiling of 500. -/
theorem c6_witness :
    streamWidth sampleDelegate sampleVideo = 1280 ∧
    clampVideoBitrate (mkDelegate brOpt) 600 = 500 ∧
    clampVideoBitrate (mkDelegate brOpt) 100 = 200 ∧
    (mkDelegate brExceedOpt).minBitrate = some 500 :=
  ⟨c6_clamping.1 sampleDelegate sampleVideo 1280 rfl (by decide),
   c6_clamping.2.1 (mkDelegate brOpt) 600 500 rfl (by decide) (by decide),
   c6_clamping.2.2.1 brOpt 100 200 rfl (by decide) (by decide),
   c6_clamping.2.2.2 brExceedOpt 900 500 rfl rfl (by decide) (by decide)⟩

/-- C7 counterexample: with the pass-through `copy` codec configured together
with a flip flag, the snapshot command still emits a `-vf` argument (the
codec guard of line 311 exists only in the stream path, not in the snapshot
path of lines 127-140). -/
theorem c7_counterexample :
    (mkDelegate copyOpt).vcodec = "copy" ∧
    vfFragment (snapshotVf (mkDelegate copyOpt) 320 240) = " -vf hflip,scale=320:240" :=
  ⟨rfl, rfl⟩

/-- C7 (amended): only the stream command suppresses all filter arguments
when the effective codec is the pass-through `copy`; the snapshot command
ignores the codec and emits its filters regardless. -/
theorem c7_copy_codec_stream (d : StreamingDelegate) (video : VideoInfo)
    (h : d.vcodec = "copy") :
    streamVf d video = [] ∧ vfFragment (streamVf d video) = "" := by
  have hvf : streamVf d video = [] := by
    cases hfo : effectiveVideoFilter d.videoFilter
        (mkResolution d.ffmpegOpt.preserveRatioMode (streamWidth d video)
          (streamHeight d video)) with
    | none => simp [streamVf, hfo]
    | some f => simp [streamVf, hfo, h]
  exact ⟨hvf, by rw [hvf]; rfl⟩

/-- C7 witness: the amended theorem applied to the `copy`-codec delegate. -/
theorem c7_witness :
    (mkDelegate copyOpt).vcodec = "copy" ∧
    streamVf (mkDelegate copyOpt) sampleVideo = [] :=
  ⟨rfl, (c7_copy_codec_stream (mkDelegate copyOpt) sampleVideo rfl).1⟩

/-- C8 counterexample: a snapshot whose subprocess fails to launch in the
usual asynchronous way (an `error` event followed by `close`, as a missing
transcoder binary produces) makes the caller receive a success result with
an empty byte buffer — the `error` handler of lines 159-162 only logs, and
the `close` handler then invokes the callback without an error. -/
theorem c8_counterexample :
    (handleSnapshotRequest sampleDelegate 480 270
        (SpawnOutcome.proc [ProcEvent.errored "spawn ENOENT", ProcEvent.closed])).2 =
      [SnapshotResult.ok []] := rfl

/-- C8 (amended): only a synchronous throw from `spawn` is surfaced to the
snapshot caller as a callback error (the catch of lines 169-172); a launch
failure reported through the subprocess `error` event is merely logged, and
the subsequent `close` event delivers a success result carrying the bytes
collected so far (possibly none). -/
theorem c8_snapshot_error_paths :
    (∀ (d : StreamingDelegate) (w h : Nat) (e : String),
        (handleSnapshotRequest d w h (.threw e)).2 = [.err e]) ∧
    (∀ (d : StreamingDelegate) (w h : Nat) (msg : String),
        (handleSnapshotRequest d w h (.proc [.errored msg, .closed])).2 = [.ok []]) :=
  ⟨fun _ _ _ _ => rfl, fun _ _ _ _ => rfl⟩

/-- C9: when the configured video filter is exactly the string `none`, both
the snapshot and the stream builders emit no filter list at all — no default
scale filter and no hflip/vflip even when the flip flags are set — so the
`-vf` fragment of both commands is empty. -/
theorem c9_filter_none (opt : VideoConfigOpt) (reqW reqH : Nat) (video : VideoInfo)
    (h : opt.videoFilter = some "none") :
    snapshotVf (mkDelegate opt) reqW reqH = [] ∧
    streamVf (mkDelegate opt) video = [] ∧
    vfFragment (snapshotVf (mkDelegate opt) reqW reqH) = "" ∧
    vfFragment (streamVf (mkDelegate opt) video) = "" := by
  have hv : (mkDelegate opt).videoFilter = some "none" := by
    simp [mkDelegate, jsOrStrNull, h]
  have heff : ∀ r : String, effectiveVideoFilter (mkDelegate opt).videoFilter r = some "none" := by
    intro r
    rw [hv]
    simp [effectiveVideoFilter]
  have h1 : snapshotVf (mkDelegate opt) reqW reqH = [] := by
    simp [snapshotVf, heff]
  have h2 : streamVf (mkDelegate opt) video = [] := by
    simp [streamVf, heff]
  exact ⟨h1, h2, by rw [h1]; rfl, by rw [h2]; rfl⟩

/-- C9 witness: the theorem applied to a configuration with filter `none` and
both flip flags set. -/
theorem c9_witness :
    noneOpt.videoFilter = some "none" ∧
    snapshotVf (mkDelegate noneOpt) 640 480 = [] :=
  ⟨rfl, (c9_filter_none noneOpt 640 480 sampleVideo rfl).1⟩

/-- C10: the requested audio bitrate is clamped down to a configured nonzero
maxBitrate when it exceeds it, and is otherwise never increased — in
particular it is never raised to the configured minBitrate, since the audio
clamp of lines 291-294 has no floor branch. -/
theorem c10_audio_bitrate :
    (∀ (d : StreamingDelegate) (req M : Nat),
        d.maxBitrate = some M → M ≠ 0 → req > M → clampAudioBitrate d req = M) ∧
    (∀ (d : StreamingDelegate) (req : Nat), clampAudioBitrate d req ≤ req) := by
  constructor
  · intro d req M hM hM0 hgt
    simp [clampAudioBitrate, truthyN, jsGT, hM, hM0, hgt]
  · intro d req
    unfold clampAudioBitrate
    by_cases hc : (truthyN d.maxBitrate && jsGT req d.maxBitrate) = true
    · rw [if_pos hc]
      cases hM : d.maxBitrate with
      | none => simp [hM, truthyN] at hc
      | some M =>
        rw [hM] at hc
        simp only [jsGT, Bool.and_eq_true, decide_eq_true_eq] at hc
        simp only [hM, Option.getD_some]
        omega
    · rw [if_neg hc]

/-- C10 witness: audio bitrate 600 against ceiling 500 is clamped down, and
audio bitrate 100 below the floor 200 is left unchanged. -/
theorem c10_witness :
    (mkDelegate brOpt).maxBitrate = some 500 ∧
    clampAudioBitrate (mkDelegate brOpt) 600 = 500 ∧
    clampAudioBitrate (mkDelegate brOpt) 100 ≤ 100 :=
  ⟨rfl,
   c10_audio_bitrate.1 (mkDelegate brOpt) 600 500 rfl (by decide) (by decide),
   c10_audio_bitrate.2 (mkDelegate brOpt) 100⟩
